import Mathlib

/-!
Verification of the video-note generator post-processing core
(generators/blog.py and generators/xiaohongshu.py).

The Python code is shallowly embedded as executable Lean functions over
List Char / String.  Python regular-expression substitutions are hand
compiled to deterministic scanners that implement the exact leftmost,
greedy/non-greedy backtracking semantics of the concrete patterns used by
the source (each pattern is simple enough that its backtracking is
deterministic; this is argued in the comment of every scanner).

Modelling conventions:
 - the Python whitespace class (str.strip, regex backslash-s) is modelled
   by the six ASCII whitespace characters; the regex digit class by ASCII
   digits.  All inputs exercised by the theorems stay inside this range.
 - Python strings are sequences of code points, as are Lean strings, so
   Python len and slicing agree with String.length and List.take on data.
 - all recursion is structural (with an explicit fuel bound where the
   recursion jumps), so every definition evaluates by kernel reduction.
-/

set_option maxRecDepth 100000

namespace VNG

def isPySpace (c : Char) : Bool :=
  c == ' ' || c == '\t' || c == '\n' || c == '\r' || c == '\x0b' || c == '\x0c'

def isAsciiDigit (c : Char) : Bool :=
  '0' ≤ c && c ≤ '9'

/-- Character class of the pattern hash-then-one-or-more-of [^\s#]. -/
def isTagChar (c : Char) : Bool :=
  !(isPySpace c) && !(c == '#')

/-- startsWithL pat l: l begins with the pattern pat. -/
def startsWithL : List Char → List Char → Bool
  | [], _ => true
  | _ :: _, [] => false
  | p :: ps, c :: cs => p == c && startsWithL ps cs

/-- containsL pat l: pat occurs as a contiguous sublist of l. -/
def containsL (pat : List Char) : List Char → Bool
  | [] => startsWithL pat []
  | c :: cs => startsWithL pat (c :: cs) || containsL pat cs

/-- Number of positions of l at which pat starts (occurrence count). -/
def countSubL (pat : List Char) : List Char → Nat
  | [] => if startsWithL pat [] then 1 else 0
  | c :: cs => (if startsWithL pat (c :: cs) then 1 else 0) + countSubL pat cs

/-- Python str.strip restricted to ASCII whitespace. -/
def pyStripL (l : List Char) : List Char :=
  ((l.dropWhile isPySpace).reverse.dropWhile isPySpace).reverse

def pyStrip (s : String) : String :=
  String.mk (pyStripL s.data)

/-- Python s[:n] (slicing by code points). -/
def pyTake (n : Nat) (s : String) : String :=
  String.mk (s.data.take n)

def containsSubstr (s pat : String) : Bool :=
  containsL pat.data s.data

def countSubstr (s pat : String) : Nat :=
  countSubL pat.data s.data

/-- Drop everything up to and including the first newline. -/
def dropThroughNl : List Char → List Char
  | [] => []
  | c :: cs => if c == '\n' then cs else dropThroughNl cs

/-- Python str.split(sep) for a non-empty separator, fueled worker.
Scans left to right, splitting at each non-overlapping occurrence. -/
def splitOnGo (sep : List Char) : Nat → List Char → List Char → List (List Char)
  | 0, acc, l => [acc.reverse ++ l]
  | n + 1, acc, l =>
    if startsWithL sep l then acc.reverse :: splitOnGo sep n [] (l.drop sep.length)
    else
      match l with
      | [] => [acc.reverse]
      | c :: cs => splitOnGo sep n (c :: acc) cs

def splitOnL (sep l : List Char) : List (List Char) :=
  splitOnGo sep (l.length + 1) [] l

def splitOnS (sep s : String) : List String :=
  (splitOnL sep.data s.data).map String.mk

/-- Python sep.join. -/
def joinSep (sep : String) : List String → String
  | [] => ""
  | [s] => s
  | s :: rest => s ++ sep ++ joinSep sep rest

def nlSep : String := "\n"

def parSep : String := "\n\n"

/-! ## BlogGenerator.format_blog (blog.py lines 165-241)

The five re.sub substitutions are compiled one by one.  All five delete
their matches (replacement is the empty string). -/

def sourceLabelL : List Char := ("思想来源").data

def videoLabelL : List Char := ("原始视频").data

/-- One metadata line of pattern 1: label, backslash-s star, parenthesised
group [^)]*, colon, [^\n]*, newline.  Every starred class is followed by a
character it cannot match, so greedy matching is deterministic. -/
def metaLineParen (label : List Char) (l : List Char) : Option (List Char) :=
  if startsWithL label l then
    match (l.drop label.length).dropWhile isPySpace with
    | '(' :: l3 =>
      match l3.dropWhile (fun c => !(c == ')')) with
      | ')' :: ':' :: l5 =>
        match l5.dropWhile (fun c => !(c == '\n')) with
        | '\n' :: l7 => some l7
        | _ => none
      | _ => none
    | _ => none
  else none

/-- One metadata line of pattern 2: label, colon, [^\n]*, newline. -/
def metaLineColon (label : List Char) (l : List Char) : Option (List Char) :=
  if startsWithL label l then
    match l.drop label.length with
    | ':' :: l2 =>
      match l2.dropWhile (fun c => !(c == '\n')) with
      | '\n' :: l4 => some l4
      | _ => none
    | _ => none
  else none

/-- Try pattern 1 at a line start: leading [\n\s]* (equivalently
backslash-s star), then the two parenthesised metadata lines.  Returns the
remainder after the match. -/
def tryP1 (l : List Char) : Option (List Char) :=
  match metaLineParen sourceLabelL (l.dropWhile isPySpace) with
  | some r => metaLineParen videoLabelL r
  | none => none

/-- Try pattern 2 at a line start (the unparenthesised variant). -/
def tryP2 (l : List Char) : Option (List Char) :=
  match metaLineColon sourceLabelL (l.dropWhile isPySpace) with
  | some r => metaLineColon videoLabelL r
  | none => none

/-- MULTILINE re.sub with empty replacement: try the matcher at every
line-start position (the patterns are caret anchored), delete each match
and resume scanning at its end.  A match always ends just after a newline,
so scanning resumes at a line start.  Matches consume at least one
character, hence fuel equal to the length suffices. -/
def mlDeleteGo (tm : List Char → Option (List Char)) : Nat → Bool → List Char → List Char
  | 0, _, l => l
  | n + 1, atStart, l =>
    match (if atStart then tm l else none) with
    | some rest => mlDeleteGo tm n true rest
    | none =>
      match l with
      | [] => []
      | c :: cs => c :: mlDeleteGo tm n (c == '\n') cs

def mlDelete (tm : List Char → Option (List Char)) (l : List Char) : List Char :=
  mlDeleteGo tm l.length true l

def hrL : List Char := ("---").data

def metaHeaderL : List Char := ("**文章元信息**").data

/-- Pattern 3 can start here: newline star, ---, newline star, the bolded
metadata header; the trailing dot-star-dollar (DOTALL) then matches to the
end of the string, so the whole suffix is deleted. -/
def p3core (l : List Char) : Bool :=
  let l1 := l.dropWhile (fun c => c == '\n')
  startsWithL hrL l1 && startsWithL metaHeaderL ((l1.drop 3).dropWhile (fun c => c == '\n'))

def p4headL : List Char := ("- 思想来源").data

def p4midL : List Char := ("\n- 原始视频").data

/-- After the bulleted source line, pattern 4 needs (non-greedy, DOTALL)
some occurrence of the bulleted video line followed by a later newline. -/
def p4tail : List Char → Bool
  | [] => false
  | c :: cs =>
    (startsWithL p4midL (c :: cs) && ((c :: cs).drop p4midL.length).any (fun x => x == '\n'))
      || p4tail cs

def p4core (l : List Char) : Bool :=
  let l1 := l.dropWhile (fun c => c == '\n')
  startsWithL p4headL l1 && p4tail (l1.drop p4headL.length)

def aiNoteL : List Char := ("*本文由 AI 辅助创作").data

/-- Pattern 5: newline star, ---, newline star, the disclaimer opener,
then to the end of the string. -/
def p5core (l : List Char) : Bool :=
  let l1 := l.dropWhile (fun c => c == '\n')
  startsWithL hrL l1 && startsWithL aiNoteL ((l1.drop 3).dropWhile (fun c => c == '\n'))

/-- Delete from the leftmost position where the core matches through the
end of the string (the dollar-anchored DOTALL patterns 3, 4, 5). -/
def deleteFromMatch (core : List Char → Bool) : List Char → List Char
  | [] => []
  | c :: cs => if core (c :: cs) then [] else c :: deleteFromMatch core cs

/-- Caller-supplied context mapping (video_info).  Absent keys take the
fixed defaults of the source at each use site. -/
structure VideoInfo where
  title : Option String := none
  uploader : Option String := none
  url : Option String := none
  platform : Option String := none
  timestamp : Option String := none

def unknownCreator : String := "未知创作者"

def unknownS : String := "未知"

def blogFooter (v : VideoInfo) : String :=
  "\n\n---\n\n**文章元信息**\n\n- 思想来源 (Source of Inspiration): " ++ v.uploader.getD unknownCreator ++
  "\n- 原始视频 (Original Video): " ++ v.url.getD "" ++
  "\n- 视频平台 (Platform): " ++ v.platform.getD unknownS ++
  "\n- 文章生成时间: " ++ v.timestamp.getD "" ++
  "\n\n---\n\n*本文由 AI 辅助创作，基于视频内容深度重构而成。*\n"

/-- BlogGenerator.format_blog: strip previously inserted metadata
(patterns 1-5, each followed by str.strip), then append the footer. -/
def formatBlog (content : String) (v : VideoInfo) : String :=
  let c1 := pyStripL (mlDelete tryP1 content.data)
  let c2 := pyStripL (mlDelete tryP2 c1)
  let c3 := pyStripL (deleteFromMatch p3core c2)
  let c4 := pyStripL (deleteFromMatch p4core c3)
  let c5 := pyStripL (deleteFromMatch p5core c4)
  String.mk c5 ++ blogFooter v

/-! ## XiaohongshuGenerator: per-line title cleanup (xiaohongshu.py lines 92-103) -/

/-- Leading ordinal marker: one or more digits, one of . 、 ) ], then
backslash-s star.  Greedy digit matching is deterministic because the
following class contains no digit. -/
def stripOrdinalL (l : List Char) : List Char :=
  let ds := l.takeWhile isAsciiDigit
  if ds.isEmpty then l
  else
    match l.drop ds.length with
    | c :: rest =>
      if c == '.' || c == '、' || c == ')' || c == ']' then rest.dropWhile isPySpace else l
    | [] => l

def titleWordL : List Char := ("标题").data

/-- The part of the optional-bracket title marker after an optional
opening bracket: the title word, digit star, optional closing bracket,
whitespace star. -/
def titleMarkerCore (m : List Char) : Option (List Char) :=
  if startsWithL titleWordL m then
    let r1 := (m.drop 2).dropWhile isAsciiDigit
    let r2 := match r1 with
      | ']' :: t => t
      | _ => r1
    some (r2.dropWhile isPySpace)
  else none

/-- Leading marker of shape optional [, title word, digit star, optional
], whitespace star.  If the opening bracket is present but the title word
does not follow, the optional bracket backtracks to empty and the literal
then fails, so the line is unchanged. -/
def stripTitleMarkerL (l : List Char) : List Char :=
  match l with
  | '[' :: rest => (titleMarkerCore rest).getD l
  | _ => (titleMarkerCore l).getD l

/-- Leading bullet glyph - or * followed by whitespace star. -/
def stripBulletL (l : List Char) : List Char :=
  match l with
  | [] => []
  | c :: rest => if c == '-' || c == '*' then rest.dropWhile isPySpace else l

/-- One line of the primary title parse: strip, then the three marker
substitutions in source order. -/
def cleanTitleLine (s : String) : String :=
  String.mk (stripBulletL (stripTitleMarkerL (stripOrdinalL (pyStripL s.data))))

/-- Acceptance filter of _generate_titles: non-empty and length strictly
between 5 and 50. -/
def titleLineOk (s : String) : Bool :=
  !(s == "") && decide (5 < s.length) && decide (s.length < 50)

/-- Title extraction of _generate_titles: split the response into lines,
clean each, keep the accepted ones, return at most the first five. -/
def parseTitleLines (result : String) : List String :=
  (((splitOnS nlSep result).map cleanTitleLine).filter titleLineOk).take 5

/-! ## Tag extraction (xiaohongshu.py lines 129-140): re.findall of
hash followed by one or more non-space non-hash characters. -/

/-- Fueled findall scanner: at a hash, take the greedy run of tag
characters; if non-empty it is a match and scanning resumes after the
run, otherwise scanning resumes at the next character.  Every step
consumes at least one character, so fuel equal to the length suffices. -/
def findallTagsGo : Nat → List Char → List (List Char)
  | 0, _ => []
  | _ + 1, [] => []
  | n + 1, c :: rest =>
    if c == '#' then
      let run := rest.takeWhile isTagChar
      if run.isEmpty then findallTagsGo n rest
      else run :: findallTagsGo n (rest.dropWhile isTagChar)
    else findallTagsGo n rest

def findallTagsL (l : List Char) : List (List Char) :=
  findallTagsGo l.length l

/-- XiaohongshuGenerator._extract_tags. -/
def extractTags (content : String) : List String :=
  (findallTagsL content.data).map String.mk

/-- Specification-side characterisation of tag extraction, written from
the spec text: the maximal runs of non-space non-hash characters that are
immediately preceded by a hash, in first-seen order.  The walk keeps one
bit of context: whether the previous character was a hash.  A run is
emitted exactly when it starts right after a hash; it is maximal on the
left because a hash is not a tag character, and maximal on the right by
the takeWhile. -/
def specTagsAux : Bool → List Char → List (List Char)
  | _, [] => []
  | afterHash, c :: rest =>
    (if afterHash && isTagChar c then [c :: rest.takeWhile isTagChar] else [])
      ++ specTagsAux (c == '#') rest

def specTags (s : String) : List String :=
  (specTagsAux false s.data).map String.mk

/-! ## Prompt construction (xiaohongshu.py lines 142-333, blog.py 25-145).
The literal prompt texts are transcribed from the source; the f-string
interpolation points become explicit concatenation. -/

def blogPromptPre : String :=
  "YouTube视频转博客提示词\n\n你是一位顶级的深度内容创作者与思想转述者，拥有将任何复杂信息转化为一篇结构精巧、文笔优美、思想深刻的中文博客文章的卓越能力。你的写作风格不是信息的罗列，而是思想的启迪；你的文章不仅让人读懂，更让人思考。\n\n你的任务是：将我发送的视频内容，完全内化和吸收后，以你自己的口吻和叙事风格，创作一篇全新的、独立的深度文章。\n\n核心创作原则：\n\n- 思想的重塑，而非文字的搬运： 你的目标不是\"转写\"视频，而是\"启迪\"读者。你要深入理解视频的内核，然后用最具洞察力和启发性的方式将其重新组织和呈现。\n- 标题是文章的灵魂： 你需要为整篇文章、以及文章内部的每一个逻辑章节，都创作出高度概括且充满吸引力的标题。绝不使用\"引言\"、\"正文\"、\"总结\"这类模板化标题。\n- 叙事驱动一切： 用流畅的散文体贯穿全文。即使是解释步骤或框架，也要用叙事性的段落来呈现，通过优雅的过渡词（例如\"这一切的起点在于……\"、\"要理解这背后的逻辑，我们首先需要……\"、\"然而，真正的关键在于……\"）来串联逻辑，而不是依赖项目符号。\n- 完整性至上： 必须忠实地涵盖视频中的所有重要内容、观点和细节。不要遗漏任何关键信息，不要因为追求简洁而牺牲完整性。文章长度应该与视频内容的丰富程度相匹配，宁可详尽也不要简略。\n\n**极其重要：**\n\n【关于项目符号的绝对禁令】\n绝对禁止使用任何形式的项目符号、编号列表或bullet points，包括但不限于：\n- 星号（*）开头的列表\n- 数字编号（1.、2.、3.）的列表\n- 破折号（-）开头的列表\n- 圆点（•）开头的列表\n- 任何其他形式的列表标记\n\n即使在列举多个要点时，也必须使用连贯的段落形式。例如：\n\n❌ 错误示例（使用了列表）：\n这个框架包括：\n1. 第一个要点\n2. 第二个要点\n3. 第三个要点\n\n✅ 正确示例（使用段落）：\n这个框架包括三个核心要素。首先是第一个要点的内容，它描述了……其次是第二个要点，这一点强调……最后是第三个要点，它关注……\n\n【关于内容完整性】\n必须完整呈现视频的所有重要内容，不得省略或简化任何关键观点、案例或论述。文章篇幅没有上限，要充分展开每一个主题。\n\n文章生成流程与要求：\n\n第一步：基础信息与总标题\n\n- 文章总标题： 在理解视频全部内容后，构思一个能够精准概括核心思想，并能瞬间抓住读者眼球的博客主标题（可包含副标题）。\n- 文章元信息： 在文章末尾或开头附上以下信息：\n  - 思想来源 (Source of Inspiration): [视频创作者名称]\n  - 原始视频 (Original Video): [原始视频链接]\n\n第二步：创作第一章节（开篇）\n\n- 章节标题： 创作一个能激发读者强烈好奇心，或点明核心矛盾的标题。\n- 内容要求： 以一个引人入胜的切入点（故事、场景、痛点、反常识观点）开始，自然地引出文章要探讨的核心问题，并含蓄地点明阅读本文将带来的独特认知价值，让读者确信这篇文章值得花时间深入阅读。\n\n第三步：创作主体章节（核心论述）\n\n- 章节标题： 根据视频的核心内容，将其拆解为2-4个逻辑连贯、层层递进的主题。为每一个主题创作一个精准、凝练、能体现其观点的小标题。\n- 内容要求：\n  - 这是文章的主体。你需要用充满洞察力的语言，将每个主题详细、生动地展开。多使用比喻、案例和追问来深化论述。\n  - 当遇到方法论或操作流程时，请将其逻辑和步骤融入到连贯的段落描述中。通过分析每一步的\"为什么\"，让读者不仅知其然，更知其所以然。\n  - 确保章节之间的过渡平滑且富有逻辑性，引导读者自然地从一个论点走向下一个更深的论点。\n\n第四步：创作升华章节（抽象与提炼）\n\n- 章节标题： 这个章节的标题应该直接点出你提炼出的核心框架、思维模型或底层逻辑的名称，例如\"'机会密度'框架：如何发现隐藏的价值\"或\"成长的关键：建立你的'反馈飞轮'\"。\n- 内容要求：\n  - 从前面的具体论述中，精准地抽象出最具普适性和启发性的框架或心智模型。\n  - 用清晰、优雅的语言，深入阐释这个模型的构成要素、运转原理及其背后的哲学。\n  - 重点不在于罗列定义，而在于生动地描绘出读者如何在自己的生活和工作中应用这个模型，从而获得思维上的跃迁。\n\n第五步：创作结尾章节（回响与余味）\n\n- 章节标题： 创作一个富有哲理或前瞻性的标题，为全文画上一个有力的句号。\n- 内容要求：\n  - 用精炼的语言，重新点亮文章的核心主旨，让读者产生一种\"原来如此\"的顿悟感。\n  - 将文章的观点延伸至更广阔的领域，或留给读者一个开放性的、值得长期思考的问题。\n  - 目标是让读者在合上文章后，脑海中仍有余音，心中仍有回响。\n\n全局风格与限制：\n\n- 文体流畅： 优先使用完整的段落进行叙述。**原则上不使用项目符号 (bullet points)**，除非在极少数情况下，用于并列呈现几个无法用段落替代的关键词或短语，且能极大增强表达清晰度时，方可破例。\n- 口吻自信： 以一位独立的创作者和思想家的口吻进行写作，而不是作为视频的\"介绍者\"。完全隐去\"视频中提到\"、\"作者认为\"等中介性表述。\n- 忠于思想，不限于形式： 可以在不增加新事实的前提下，对原视频的论述顺序进行优化重组，以达到最佳的阅读和逻辑体验。\n- 专有名词处理： 保留原文专有名词，并在首次出现时于括号内提供中文翻译。\n- 纯粹输出： 最终交付的内容应只有纯粹的文章本身，不包含任何关于指令（如字数要求）或创作过程的元语言。\n\n请基于以下视频内容创作博客文章：\n\n"

def blogSystemPrompt : String :=
  "你是一位顶级的深度内容创作者与思想转述者。"

/-- The full_content f-string of BlogGenerator.generate (lines 133-141). -/
def buildBlogFullContent (content : String) (v : VideoInfo) : String :=
  "\n视频标题：" ++ v.title.getD unknownS ++
  "\n视频作者：" ++ v.uploader.getD unknownS ++
  "\n视频链接：" ++ v.url.getD "" ++
  "\n视频平台：" ++ v.platform.getD unknownS ++
  "\n\n视频内容：\n" ++ content ++ "\n"

/-- self.blog_prompt.format(content=full_content): the template ends with
the interpolation point, so the user prompt is the fixed prefix followed
by the full content block. -/
def buildBlogUserPrompt (content : String) (v : VideoInfo) : String :=
  blogPromptPre ++ buildBlogFullContent content v

def titleSystemPrompt : String :=
  "## 小红书爆款标题生成专家\n\n### 角色设定\n你是一名资深的小红书标题大师。\n你精通各种爆款标题创作技巧。\n你擅长用标题瞬间抓住用户注意力。\n\n### 标题创作技能\n\n你掌握以下5种标题创作方法：\n1. **数字法则**：用具体数字增加可信度（如\"7天\"、\"3个方法\"）\n2. **二极管标题**：制造强烈反差和对比效果\n3. **疑问句式**：激发好奇心（如\"为什么...\"、\"怎么...\"）\n4. **情绪共鸣**：使用高唤起情绪词，瞬间唤醒用户共鸣\n5. **利益驱动**：直击痛点或利益点\n\n【7大爆款标题风格】\n- 数字悬念型：【3个懒人收纳法，房间一周不乱！】\n- 情感共鸣型：【谁懂啊！这碗面直接治愈了我的周一！】\n- 结果导向型：【跟着博主做，7天搞定Python基础！】\n- 反差对比型：【从烂脸到水光肌，我只做了这两件事】\n- 稀缺信息型：【这10个上海小众秘境，90%的人没去过】\n- 对话互动型：【你的枕头选对了吗？快来对照这份指南！】\n- 价值宣言型：【2025年投资自己，这3项技能最值钱】\n\n### 平台禁忌词（严禁使用）\n【诱导类】速来、必看、必收、千万不要、马上、抓紧、最后一波\n【夸大类】全网第一、最全、最强、史上、终极、完美、天花板、封神\n【营销类】免费送、0元购、薅羊毛、福利、红包、点击领取、价格感人\n【负面类】丑哭、踩雷、血亏、别买、避坑、垃圾、后悔、翻车\n\n### 标题创作要求\n1. 每个标题使用不同的爆款标题风格\n2. 严禁使用平台禁忌词\n3. emoji优先用✨🔥✅💡❗️😭🤔💪，每个标题最多2个\n4. 避免\"XX分享\"\"XX笔记\"等无效词\n5. 使用\"亲测\"\"试过\"\"我发现\"等真实感表述\n6. 每个标题字数控制在20字以内\n7. 标题要有吸引力，让人忍不住点进来看"

def titleUserPromptPre : String :=
  "请根据以下内容，生成5个不同风格的小红书爆款标题。\n\n内容概要：\n"

def titleUserPromptSuf : String :=
  "...\n\n要求：\n1. 生成5个标题，每个使用不同的爆款标题风格\n2. 直接输出5个标题，每行一个，不要添加序号和说明\n3. 严格遵守平台禁忌词规则\n4. 每个标题字数控制在20字以内\n5. 必须包含emoji，每个标题最多2个\n\n示例格式：\n数字迷雾大揭秘✨3个方法让你秒懂数字陷阱！\n谁懂啊🤔这些数字问题把我绕晕了！\n从被骗到透视💡7天学会识破数字套路\n你真的懂数字吗❗️90%人都答错的题！\n2025必学技能🔥数字思维让你更聪明\n\n请开始生成："

/-- _build_title_user_prompt: only the first 500 characters of the
content are embedded. -/
def buildTitleUserPrompt (content : String) : String :=
  titleUserPromptPre ++ pyTake 500 content ++ titleUserPromptSuf

def contentSystemPrompt : String :=
  "## 小红书爆款正文生成专家\n\n### 角色设定\n你是一名资深的小红书爆款文案写手。\n你精通小红书平台的内容创作规则。\n你擅长创作高互动、高转化的种草文案。\n\n### 正文创作技能\n\n#### 1. 写作风格\n- **语言风格**：像朋友聊天，真诚、直接、有温度\n- **句式结构**：简单明了，主谓宾清晰，一句话一个意思\n- **词汇选择**：大白话优先，专业术语必须解释\n- **段落节奏**：每段2-3句，保持呼吸感\n\n#### 2. 写作开篇方法\n- **金句开场**：用一句话抓住注意力\n- **痛点切入**：直接说出用户困扰\n- **反转开场**：先说常见误区，再给出正确方法\n- **故事引入**：用个人经历引发共鸣\n\n#### 3. 文本结构\n- **开头**：emoji+金句/痛点（1-2句话）\n- **主体**：分点叙述，每点前加emoji，3-5个要点\n- **每个要点包含**：具体方法+个人体验+效果说明\n- **结尾**：总结+互动引导\n\n#### 4. 互动引导方法\n- **提问式**：\"你们有遇到这种情况吗？\"\n- **征集式**：\"评论区说说你的方法～\"\n- **行动式**：\"赶紧收藏起来！\"\n- **共鸣式**：\"姐妹们懂我的扣1！\"\n\n#### 5. 小技巧\n- 使用\"姐妹们\"、\"宝子们\"等亲昵称呼\n- 适当使用网络流行语和梗\n- 多用\"你、我、他\"，少用\"其、该、此、彼\"\n- 多用\"真的\"、\"绝了\"、\"爱了\"等语气词\n- 用\"第一、第二、第三\"而不是\"首先、其次、最后\"\n\n#### 6. 爆炸词库\n**情绪类**：绝了、爱了、yyds、无敌、炸裂、疯狂、上头、氛围感\n**效果类**：秒杀、碾压、吊打、封神、神仙、手残党必备\n**程度类**：超级、巨、狂、暴、极致\n**共鸣类**：懂的都懂、破防了、DNA动了、真实、太真实了\n\n### 写作约束（严格执行）\n\n**禁止使用以下内容**：\n1. 不使用破折号（——）\n2. 禁用\"A而且B\"的对仗结构\n3. 不使用冒号（：），除非是对话或列表\n4. 开头不用设问句\n5. 一句话只表达一个完整意思\n6. 每段不超过3句话\n7. 避免嵌套从句和复合句\n8. 多用\"你、我、他\"，少用\"其、该、此、彼\"\n\n**改写策略**：\n1. **长句拆短**：把复合句拆成多个简单句\n2. **术语翻译**：把专业词汇翻译成大白话\n3. **增加温度**：适当加入个人感受和真实体验\n4. **逻辑清晰**：用\"第一、第二、第三\"标注顺序\n\n### 创作要求\n1. 内容真诚可信，把\"真诚\"摆在第一位\n2. 避免假大空，花里胡哨的内容\n3. 保持小红书社区调性，注重用户体验\n4. 正文控制在600-800字之间\n5. 在文末添加5-10个相关标签（用#号开头）"

def contentUserPromptPre : String :=
  "请根据以下标题和内容，创作一篇爆款小红书正文。\n\n标题：\n"

def contentUserPromptMid : String :=
  "\n\n内容：\n"

def contentUserPromptSuf : String :=
  "\n\n---\n\n【极其重要：关于列表的绝对禁令】\n绝对禁止使用任何形式的项目符号、编号列表或bullet points，包括但不限于：\n- 星号（*）开头的列表\n- 横杠（-）开头的列表\n- 数字编号（1.、2.、3.）的列表\n- 任何形式的条目化表述\n\n所有内容必须使用连贯的段落形式，用\"第一\"、\"第二\"、\"第三\"等词语自然串联。\n\n❌ 错误示例（使用了列表）：\n这些问题包括：\n* 问题1\n* 问题2\n* 问题3\n\n✅ 正确示例（使用段落）：\n这些问题包括三个方面。第一是问题1的内容。第二是问题2的描述。第三则是问题3的解释。\n\n---\n\n创作要求：\n开篇方法：选择金句开场/痛点切入/反转开场/故事引入之一\n文本结构：开头（emoji+金句1-2句）→ 主体（3-5个要点用段落展开，每段前加emoji）→ 结尾（总结+互动引导）\n写作风格：像朋友聊天，真诚、直接、有温度\n句式要求：简单明了，一句话一个意思，每段2-3句话\n称呼使用：\"姐妹们\"、\"宝子们\"等亲昵称呼\n语气词：多用\"真的\"、\"绝了\"、\"爱了\"等\n人称使用：多用\"你、我、他\"，少用\"其、该、此、彼\"\n互动引导：2-3处自然的互动问句\n正文控制在600-800字之间\n文末添加5-10个相关标签（用#号开头，每个标签另起一行）\n\n写作约束（严格禁止）：\n- 绝对不使用任何形式的项目符号或编号列表\n- 不使用破折号（——）\n- 禁用\"A而且B\"的对仗结构\n- 尽量避免使用冒号（：），用句号代替\n- 开头不用设问句\n- 避免嵌套从句和复合句\n- 所有内容都用自然段落呈现\n\n请直接输出正文内容，不要包含标题。"

/-- _build_content_user_prompt: the full content and the chosen headline
are embedded untruncated. -/
def buildContentUserPrompt (content title : String) : String :=
  contentUserPromptPre ++ title ++ contentUserPromptMid ++ content ++ contentUserPromptSuf

/-! ## Orchestration (generate flows)

The completion service is an external collaborator: it is modelled as an
arbitrary function from a (system instruction, user instruction) request
to either a thrown error or a returned string.  Sampling temperature and
the token budget are passed opaquely and do not influence the logic
modelled here, so they are omitted from the request. -/

def RawService : Type :=
  String × String → Except String String

/-- Modelled from the spec: AIProcessor.generate_completion is not part
of the provided sources; per the spec the completion interface yields a
text payload on success and an absent result on failure, an underlying
thrown error being normalised to the absent result rather than
propagated. -/
def generateCompletion (svc : RawService) (req : String × String) : Option String :=
  match svc req with
  | Except.error _ => none
  | Except.ok s => some s

def titleRequest (content : String) : String × String :=
  (titleSystemPrompt, buildTitleUserPrompt content)

def contentRequest (content title : String) : String × String :=
  (contentSystemPrompt, buildContentUserPrompt content title)

def blogRequest (content : String) (v : VideoInfo) : String × String :=
  (blogSystemPrompt, buildBlogUserPrompt content v)

/-- XiaohongshuGenerator._generate_titles: call the service with the
title prompts; an absent or empty result yields no candidates, otherwise
the response is parsed line by line. -/
def generateTitles (svc : RawService) (content : String) : List String :=
  match generateCompletion svc (titleRequest content) with
  | none => []
  | some result => if result == "" then [] else parseTitleLines result

/-- XiaohongshuGenerator._generate_content: absent result is normalised
to the empty string. -/
def generateContentStep (svc : RawService) (content title : String) : String :=
  match generateCompletion svc (contentRequest content title) with
  | none => ""
  | some r => r

def placeholderTitle : String := "小红书笔记"

/-- Phase 1 of XiaohongshuGenerator.generate: candidate titles, with the
single synthetic placeholder substituted when extraction is empty. -/
def xhsTitlesPhase (svc : RawService) (content : String) : List String :=
  let titles0 := generateTitles svc content
  if titles0.isEmpty then [placeholderTitle] else titles0

/-- Phase 2 of XiaohongshuGenerator.generate: body generation conditioned
on the primary headline, with passthrough fallback on failure. -/
def xhsBodyPhase (svc : RawService) (content : String) (titles : List String) :
    String × List String × List String :=
  let mainTitle := titles.headD placeholderTitle
  let xc := generateContentStep svc content mainTitle
  if xc == "" then (content, titles, [])
  else (xc, titles, extractTags xc)

/-- XiaohongshuGenerator.generate. -/
def xhsGenerate (svc : RawService) (content : String) : String × List String × List String :=
  xhsBodyPhase svc content (xhsTitlesPhase svc content)

/-- The try-block body of BlogGenerator.generate, in the exception monad:
the only fallible step is the completion call, whose thrown errors the
modelled interface already normalises, so the body never throws. -/
def blogGenerateBody (svc : RawService) (content : String) (v : VideoInfo) :
    Except String (Option String) :=
  Except.ok (match generateCompletion svc (blogRequest content v) with
    | none => none
    | some bc => if bc == "" then none else some bc)

/-- BlogGenerator.generate: the surrounding except-clause maps any thrown
error to the absent result. -/
def blogGenerate (svc : RawService) (content : String) (v : VideoInfo) : Option String :=
  match blogGenerateBody svc content v with
  | Except.error _ => none
  | Except.ok r => r

/-! ## XiaohongshuGenerator._parse_result (lines 517-574) -/

/-- The head of the section pattern: the ordinal ONE, a dot or the
ideographic comma, whitespace star, the title word.  Returns the
remainder where the non-greedy group starts. -/
def matchSectionHead (l : List Char) : Option (List Char) :=
  match l with
  | '一' :: c :: rest =>
    if c == '.' || c == '、' then
      let r := rest.dropWhile isPySpace
      if startsWithL titleWordL r then some (r.drop 2) else none
    else none
  | _ => none

def bodyWordL : List Char := ("正文").data

/-- The tail of the section pattern: the ordinal TWO, a dot or the
ideographic comma, whitespace star, the body word. -/
def isSectionTailAt (l : List Char) : Bool :=
  match l with
  | '二' :: c :: rest =>
    (c == '.' || c == '、') && startsWithL bodyWordL (rest.dropWhile isPySpace)
  | _ => false

/-- The non-greedy group: the characters up to the earliest position
where the section tail matches; none if the tail never occurs. -/
def takeUntilTail : List Char → Option (List Char)
  | [] => none
  | c :: cs =>
    if isSectionTailAt (c :: cs) then some []
    else (takeUntilTail cs).map (fun g => c :: g)

/-- re.search of the section pattern: the match starts at the leftmost
head occurrence from which a tail is still reachable; its group is the
non-greedy span between head and tail. -/
def sectionGroup : List Char → Option (List Char)
  | [] => none
  | c :: cs =>
    match matchSectionHead (c :: cs) with
    | some rem =>
      match takeUntilTail rem with
      | some g => some g
      | none => sectionGroup cs
    | none => sectionGroup cs

/-- Bracketed title marker of the section path: mandatory brackets and at
least one digit. -/
def stripBracketReqL (l : List Char) : List Char :=
  match l with
  | '[' :: rest =>
    if startsWithL titleWordL rest then
      let r1 := rest.drop 2
      let ds := r1.takeWhile isAsciiDigit
      if ds.isEmpty then l
      else
        match r1.drop ds.length with
        | ']' :: r2 => r2.dropWhile isPySpace
        | _ => l
    else l
  | _ => l

def hashL : List Char := ("#").data

/-- One line of the section-scoped path: strip, ordinal marker, required
bracket marker; accepted when non-blank and not hash-initial.  Note: no
length filter and no candidate cap in this path. -/
def sectionLineClean (line : String) : Option String :=
  let l1 := pyStripL line.data
  let l2 := stripBracketReqL (stripOrdinalL l1)
  if l2.isEmpty then none
  else if startsWithL hashL l2 then none
  else some (String.mk l2)

def sectionTitles (result : String) : List String :=
  match sectionGroup result.data with
  | some g => ((splitOnL nlSep.data (pyStripL g)).map String.mk).filterMap sectionLineClean
  | none => []

/-- The first-ten-lines fallback: a line is considered when non-blank,
not hash-initial, free of the body and title words, and longer than five
characters before marker stripping; collection stops once five titles
are accumulated. -/
def fallbackGo : List String → List String → List String
  | [], acc => acc.reverse
  | line :: rest, acc =>
    let l := String.mk (pyStripL line.data)
    if !(l == "") && !(startsWithL hashL l.data) && !(containsL bodyWordL l.data)
        && !(containsL titleWordL l.data) && decide (5 < l.length) then
      let l2 := String.mk (stripOrdinalL l.data)
      if l2 == "" then fallbackGo rest acc
      else
        let acc2 := l2 :: acc
        if 5 ≤ acc2.length then acc2.reverse else fallbackGo rest acc2
    else fallbackGo rest acc

def fallbackTitles (result : String) : List String :=
  fallbackGo ((splitOnS nlSep result).take 10) []

/-- XiaohongshuGenerator._parse_result: section-scoped extraction, the
fallback when it yields nothing, and findall tag extraction. -/
def parseResult (result : String) : List String × List String :=
  let sTitles := sectionTitles result
  let titles := if sTitles.isEmpty then fallbackTitles result else sTitles
  (titles, extractTags result)

/-! ## XiaohongshuGenerator.format_note (lines 576-646) -/

/-- The leading-heading substitution: hash, whitespace plus, non-newline
star (non-greedy), newline; anchored at the string start, first match
only.  Backtracking on the greedy whitespace run is genuine here: the
longest prefix of the whitespace run for which the remainder still
contains a newline wins, and the match then ends at the first newline of
that remainder. -/
def subAtryK : Nat → List Char → Option (List Char)
  | 0, _ => none
  | k + 1, rest =>
    let rem := rest.drop (k + 1)
    if rem.any (fun c => c == '\n') then some (dropThroughNl rem)
    else subAtryK k rest

def subAL (l : List Char) : List Char :=
  match l with
  | '#' :: rest =>
    match subAtryK (rest.takeWhile isPySpace).length rest with
    | some r => r
    | none => l
  | _ => l

def tagBlockLitL : List Char := ("\n\n---\n\n#").data

/-- The old-tag-block substitution: the literal separator-plus-hash
followed by DOTALL dot-star-dollar, i.e. delete from the leftmost literal
occurrence to the end. -/
def subBL (l : List Char) : List Char :=
  deleteFromMatch (fun m => startsWithL tagBlockLitL m) l

/-- The trailing-hash-lines pattern after its two leading newlines: one
or more groups of hash, tag-run plus, whitespace star, consuming exactly
to the end of the string.  The greedy whitespace run also absorbs a final
newline, so the dollar cases collapse into emptiness of the remainder. -/
def subCblocksGo : Nat → List Char → Bool
  | 0, _ => false
  | n + 1, l =>
    match l with
    | '#' :: rest =>
      let run := rest.takeWhile isTagChar
      if run.isEmpty then false
      else
        let r2 := (rest.dropWhile isTagChar).dropWhile isPySpace
        r2.isEmpty || subCblocksGo n r2
    | _ => false

def subCcore (l : List Char) : Bool :=
  startsWithL parSep.data l && subCblocksGo l.length (l.drop 2)

def subCL (l : List Char) : List Char :=
  deleteFromMatch subCcore l

/-- The three-step body cleanup at the head of format_note. -/
def noteClean (content : String) : String :=
  let s1 := pyStripL (subAL content.data)
  let s2 := subBL s1
  let s3 := pyStripL (subCL s2)
  String.mk s3

def altTitleHeading : String := "# 备选标题\n"

def hrBlock : String := "\n---\n"

/-- The numbered candidate listing (enumerate from 1). -/
def numberedTitles (ts : List String) : List String :=
  ((List.range ts.length).zip ts).map (fun p => toString (p.1 + 1) ++ ". " ++ p.2)

def notePreamble (allTitles : Option (List String)) : List String :=
  match allTitles with
  | some ts => if ts.length > 1 then [altTitleHeading] ++ numberedTitles ts ++ [hrBlock] else []
  | none => []

def noteCover (images : List String) : List String :=
  match images with
  | [] => []
  | i0 :: _ => ["![封面图](" ++ i0 ++ ")\n"]

def noteMidImage (images : List String) : List String :=
  match images with
  | _ :: i1 :: _ => ["\n![配图](" ++ i1 ++ ")\n"]
  | _ => []

def noteTailImage (images : List String) : List String :=
  match images with
  | _ :: _ :: i2 :: _ => ["\n\n![配图](" ++ i2 ++ ")"]
  | _ => []

def noteTagBlock (tags : List String) : List String :=
  if tags.isEmpty then []
  else ["\n\n---\n", joinSep nlSep (tags.map (fun t => "#" ++ t))]

/-- XiaohongshuGenerator.format_note: clean the body, optionally emit the
candidate preamble, the main heading, the cover image, the body split at
blank lines and divided at the midpoint with optional inline and trailing
figures, and the tag block; joined with single newlines. -/
def formatNote (content title : String) (tags images : List String)
    (allTitles : Option (List String)) : String :=
  let parts := splitOnS parSep (noteClean content)
  let mid := parts.length / 2
  joinSep nlSep
    (notePreamble allTitles ++ ["# " ++ title ++ "\n"] ++ noteCover images
      ++ [joinSep parSep (parts.take mid), "\n"] ++ noteMidImage images
      ++ [joinSep parSep (parts.drop mid)] ++ noteTailImage images
      ++ noteTagBlock tags)

/-! ## Concrete inputs used by the theorems -/

def c1Content : String := "思想来源 (a): b\n原始视频 (c): d"

def c1Info : VideoInfo := {}

def c1Once : String := formatBlog c1Content c1Info

def c1Twice : String := formatBlog c1Once c1Info

def c1Marker : String := "原始视频 (c): d"

def c1MarkerTail : String := "(c): d"

def c2Body : String := "正文第一段。\n\n正文第二段。"

def c2MainTitle : String := "主标题"

def c2Tags : List String := ["标签一", "标签二"]

def c2AllTitles : List String := ["标题甲", "标题乙"]

def c2Once : String := formatNote c2Body c2MainTitle c2Tags [] (some c2AllTitles)

def c2Twice : String := formatNote c2Once c2MainTitle c2Tags [] (some c2AllTitles)

def c2DupLine : String := "1. 标题甲"

def c2BodyMarker : String := "正文第一段"

def headingMarkL : List Char := ("# ").data

def svcDownMsg : String := "service unavailable"

def svcDown : RawService := fun _ => Except.error svcDownMsg

def c3Content : String := "转录文本内容"

def svcEmpty : RawService := fun _ => Except.ok ""

def c4Content : String := "测试内容"

def c5Title : String := "今天试了一个超好用的学习方法真的绝了"

def svcC5 : RawService := fun req =>
  if req.1 == titleSystemPrompt then Except.ok c5Title else Except.error svcDownMsg

def c5Content : String := "学习心得分享"

def c6ShortSample : String := "一. 标题\nabcd\n二. 正文\nx"

def c6ShortTitle : String := "abcd"

def c6SampleResponse : String := "1. 这是一个不错的标题示例\n短"

def c6AcceptedTitle : String := "这是一个不错的标题示例"

def c6Line20 : String := "abcdefghijklmnopqrst"

def c6FourLines : String :=
  "abcd\nabcde\nabcdefghijklmnopqrst\nxxxxxxxxxxxxxxxxxxxxxxxxxxxxxxxxxxxxxxxxxxxxxxxxxx"

def c7FiveSample : String :=
  "1. 秋天的第一杯奶茶真的绝了\n2) 这三个方法让你效率翻倍哦\n[标题3] 亲测有效的收纳小技巧分享\n- 我发现的宝藏学习工具清单\n* 一周搞定期末复习的秘诀呀"

def c7FiveExpected : List String :=
  ["秋天的第一杯奶茶真的绝了", "这三个方法让你效率翻倍哦", "亲测有效的收纳小技巧分享",
   "我发现的宝藏学习工具清单", "一周搞定期末复习的秘诀呀"]

def c7SixSample : String :=
  "一. 标题\n第一个备选标题甲\n第二个备选标题乙\n第三个备选标题丙\n第四个备选标题丁\n第五个备选标题戊\n第六个备选标题己\n二. 正文\n正文内容"

def c8Sample : String := "分享 #topic 和 #topic 再 #other 啦"

def c8Expected : List String := ["topic", "topic", "other"]

def c8NoTags : String := "没有任何标签的文本"

/-! ## Helper lemmas -/

theorem isTagChar_ne_hash {c : Char} (h : isTagChar c = true) : (c == '#') = false := by
  unfold isTagChar at h
  simp only [Bool.and_eq_true, Bool.not_eq_true'] at h
  exact h.2

theorem mem_takeWhile_pred {p : Char → Bool} :
    ∀ {l : List Char} {a : Char}, a ∈ l.takeWhile p → p a = true := by
  intro l
  induction l with
  | nil => intro a h; simp [List.takeWhile] at h
  | cons c cs ih =>
    intro a h
    rw [List.takeWhile] at h
    cases hp : p c with
    | false => rw [hp] at h; simp at h
    | true =>
      rw [hp] at h
      rcases List.mem_cons.mp h with h1 | h2
      · rw [h1]; exact hp
      · exact ih h2

theorem length_dropWhile_le_self (p : Char → Bool) (l : List Char) :
    (l.dropWhile p).length ≤ l.length := by
  induction l with
  | nil => simp [List.dropWhile]
  | cons c cs ih =>
    rw [List.dropWhile]
    cases p c with
    | false => simp
    | true => simpa using Nat.le_trans ih (Nat.le_succ _)

/-- Walking a run of tag characters under a non-hash flag emits nothing
and leaves the flag non-hash. -/
theorem specTagsAux_walk :
    ∀ (run rest : List Char), (∀ c ∈ run, isTagChar c = true) →
      specTagsAux false (run ++ rest) = specTagsAux false rest := by
  intro run
  induction run with
  | nil => intro rest _; rfl
  | cons r rs ih =>
    intro rest h
    have hr : isTagChar r = true := h r (List.mem_cons_self r rs)
    have hrs : ∀ c ∈ rs, isTagChar c = true := fun c hc => h c (List.mem_cons_of_mem r hc)
    show (if false && isTagChar r then [r :: (rs ++ rest).takeWhile isTagChar] else [])
        ++ specTagsAux (r == '#') (rs ++ rest) = specTagsAux false rest
    rw [isTagChar_ne_hash hr]
    simpa using ih rest hrs

/-- Unfolding the spec walk just after a hash: the maximal run at the
head (if any) is emitted and skipped. -/
theorem specTagsAux_after_hash (rest : List Char) :
    specTagsAux true rest =
      (if (rest.takeWhile isTagChar).isEmpty then specTagsAux false rest
       else rest.takeWhile isTagChar :: specTagsAux false (rest.dropWhile isTagChar)) := by
  cases rest with
  | nil => rfl
  | cons c cs =>
    cases htc : isTagChar c with
    | true =>
      have hsplit : cs.takeWhile isTagChar ++ cs.dropWhile isTagChar = cs :=
        List.takeWhile_append_dropWhile isTagChar cs
      show (if true && isTagChar c then [c :: cs.takeWhile isTagChar] else [])
          ++ specTagsAux (c == '#') cs = _
      rw [htc, isTagChar_ne_hash htc]
      have hwalk : specTagsAux false cs = specTagsAux false (cs.dropWhile isTagChar) := by
        conv =>
          lhs
          rw [← hsplit]
        exact specTagsAux_walk (cs.takeWhile isTagChar) (cs.dropWhile isTagChar)
          (fun a ha => mem_takeWhile_pred ha)
      rw [List.takeWhile_cons, htc, List.dropWhile_cons, htc]
      simp [hwalk]
    | false =>
      have hL : specTagsAux true (c :: cs) = specTagsAux (c == '#') cs := by
        show (if true && isTagChar c then [c :: cs.takeWhile isTagChar] else [])
            ++ specTagsAux (c == '#') cs = specTagsAux (c == '#') cs
        rw [htc]
        simp
      have hR : specTagsAux false (c :: cs) = specTagsAux (c == '#') cs := by
        show (if false && isTagChar c then [c :: cs.takeWhile isTagChar] else [])
            ++ specTagsAux (c == '#') cs = specTagsAux (c == '#') cs
        simp
      rw [hL]
      simp [List.takeWhile_cons, htc, hR]

/-- The hand-compiled findall scanner agrees with the specification walk
whenever the fuel covers the input length. -/
theorem findallTagsGo_eq_spec :
    ∀ (n : Nat) (l : List Char), l.length ≤ n → findallTagsGo n l = specTagsAux false l := by
  intro n
  induction n with
  | zero =>
    intro l h
    have hl : l = [] := List.eq_nil_of_length_eq_zero (Nat.le_zero.mp h)
    rw [hl]
    rfl
  | succ n ih =>
    intro l h
    cases l with
    | nil => rfl
    | cons c cs =>
      have hcs : cs.length ≤ n := Nat.le_of_succ_le_succ h
      cases hc : c == '#' with
      | false =>
        show (if c == '#' then _ else findallTagsGo n cs) = _
        rw [hc]
        show findallTagsGo n cs = specTagsAux false (c :: cs)
        have hnt : (false && isTagChar c) = false := by simp
        show findallTagsGo n cs
            = (if false && isTagChar c then [c :: cs.takeWhile isTagChar] else [])
              ++ specTagsAux (c == '#') cs
        rw [hnt, hc]
        simpa using ih cs hcs
      | true =>
        show (if c == '#' then
            (if (cs.takeWhile isTagChar).isEmpty then findallTagsGo n cs
             else cs.takeWhile isTagChar :: findallTagsGo n (cs.dropWhile isTagChar))
          else _) = _
        rw [hc]
        have hrhs : specTagsAux false (c :: cs) = specTagsAux true cs := by
          show (if false && isTagChar c then [c :: cs.takeWhile isTagChar] else [])
              ++ specTagsAux (c == '#') cs = specTagsAux true cs
          rw [hc]
          simp
        rw [hrhs, specTagsAux_after_hash]
        cases he : (cs.takeWhile isTagChar).isEmpty with
        | true => simpa using ih cs hcs
        | false =>
          have hd : (cs.dropWhile isTagChar).length ≤ n :=
            Nat.le_trans (length_dropWhile_le_self isTagChar cs) hcs
          simpa using ih (cs.dropWhile isTagChar) hd

theorem xhsBodyPhase_fst_titles (svc : RawService) (content : String) (ts : List String) :
    (xhsBodyPhase svc content ts).2.1 = ts := by
  simp only [xhsBodyPhase]
  split
  · rfl
  · rfl

theorem xhsBodyPhase_empty (svc : RawService) (content : String) (ts : List String)
    (h : generateContentStep svc content (ts.headD placeholderTitle) = "") :
    xhsBodyPhase svc content ts = (content, ts, []) := by
  simp only [xhsBodyPhase]
  rw [h]
  rfl

theorem generateContentStep_fail (svc : RawService) (content title : String)
    (h : (∃ e, svc (contentRequest content title) = Except.error e)
      ∨ svc (contentRequest content title) = Except.ok "") :
    generateContentStep svc content title = "" := by
  unfold generateContentStep generateCompletion
  rcases h with ⟨e, he⟩ | he <;> rw [he]

theorem xhsTitlesPhase_ne_nil (svc : RawService) (content : String) :
    xhsTitlesPhase svc content ≠ [] := by
  unfold xhsTitlesPhase
  cases generateTitles svc content with
  | nil => simp
  | cons a l => simp

theorem fallbackGo_length_le :
    ∀ (ls : List String) (acc : List String), acc.length < 5 →
      (fallbackGo ls acc).length ≤ 5 := by
  intro ls
  induction ls with
  | nil =>
    intro acc h
    unfold fallbackGo
    simpa using Nat.le_of_lt h
  | cons line rest ih =>
    intro acc h
    simp only [fallbackGo]
    split
    · split
      · exact ih acc h
      · split
        · simp only [List.length_reverse, List.length_cons]
          omega
        · apply ih
          next hlen =>
            simp only [List.length_cons] at hlen ⊢
            omega
    · exact ih acc h

/-! ## Claim theorems -/

/-- C1: the claim states that long-form footer assembly is idempotent for
every content string and video_info mapping.  The code violates this: at
the concrete content below (a metadata preamble whose final newline is
missing), the footer appended by the first run supplies the newline that
the preamble-stripping pattern needs, so the second run deletes the two
content lines; the two results differ (the second has lost the content
present in the first). -/
theorem c1_format_blog_not_idempotent :
    c1Twice ≠ c1Once
    ∧ containsSubstr c1Once c1Marker = true
    ∧ containsSubstr c1Twice c1MarkerTail = false := by
  refine ⟨by decide, by decide, by decide⟩

/-- C2: the claim states that re-running short-form assembly on its own
output duplicates neither the alternate-headlines preamble nor the tag
block and does not yield two top-level hash headings.  The code violates
this at the concrete input below: the old-tag-block pattern matches at
the preamble separator of the first output, so the second run deletes the
whole body and keeps the numbered candidate list, which then reappears as
the body; the numbered listing occurs twice, the original body is lost,
and the result carries two top-level hash headings. -/
theorem c2_format_note_not_idempotent :
    countSubstr c2Twice c2DupLine = 2
    ∧ ((splitOnS nlSep c2Twice).filter (fun l => startsWithL headingMarkL l.data)).length = 2
    ∧ containsSubstr c2Twice c2BodyMarker = false
    ∧ containsSubstr c2Once c2BodyMarker = true := by
  refine ⟨by decide, by decide, by decide, by decide⟩

/-- C3: no exception escapes the generation flows: the long-form
try-body never yields a thrown error, and a completion failure - whether
an absent result caused by a thrown service error or an empty returned
string - is normalised to the degraded well-typed result: none for the
long-form flow, the passthrough tuple for the short-form flow. -/
theorem c3_failures_normalized (svc : RawService) (content : String) (v : VideoInfo) :
    (∃ r, blogGenerateBody svc content v = Except.ok r)
    ∧ ((∃ e, svc (blogRequest content v) = Except.error e)
        ∨ svc (blogRequest content v) = Except.ok ""
        → blogGenerate svc content v = none)
    ∧ ((∃ e, svc (contentRequest content ((xhsTitlesPhase svc content).headD placeholderTitle))
          = Except.error e)
        ∨ svc (contentRequest content ((xhsTitlesPhase svc content).headD placeholderTitle))
          = Except.ok ""
        → xhsGenerate svc content = (content, xhsTitlesPhase svc content, [])) := by
  refine ⟨⟨_, rfl⟩, ?_, ?_⟩
  · intro h
    rcases h with ⟨e, he⟩ | he
    · unfold blogGenerate blogGenerateBody generateCompletion
      rw [he]
    · unfold blogGenerate blogGenerateBody generateCompletion
      rw [he]
      rfl
  · intro h
    unfold xhsGenerate
    exact xhsBodyPhase_empty svc content (xhsTitlesPhase svc content)
      (generateContentStep_fail svc content _ h)

/-- C3 witness: a service that always throws is normalised to none for
the long-form flow and to the passthrough tuple for the short-form
flow. -/
theorem c3_witness :
    blogGenerate svcDown c3Content {} = none
    ∧ xhsGenerate svcDown c3Content = (c3Content, [placeholderTitle], []) := by
  constructor
  · exact (c3_failures_normalized svcDown c3Content {}).2.1 (Or.inl ⟨svcDownMsg, rfl⟩)
  · have h := (c3_failures_normalized svcDown c3Content {}).2.2 (Or.inl ⟨svcDownMsg, rfl⟩)
    rw [h]
    rfl

/-- C4: the headline-candidate list is never empty after the title phase:
when extraction yields zero candidates exactly the one synthetic
placeholder is substituted, and the body phase is run conditioned on that
placeholder list. -/
theorem c4_titles_never_empty (svc : RawService) (content : String) :
    (xhsGenerate svc content).2.1 ≠ []
    ∧ (generateTitles svc content = [] →
        (xhsGenerate svc content).2.1 = [placeholderTitle]
        ∧ xhsGenerate svc content = xhsBodyPhase svc content [placeholderTitle]) := by
  constructor
  · unfold xhsGenerate
    rw [xhsBodyPhase_fst_titles]
    exact xhsTitlesPhase_ne_nil svc content
  · intro h
    have hph : xhsTitlesPhase svc content = [placeholderTitle] := by
      unfold xhsTitlesPhase
      rw [h]
      rfl
    constructor
    · unfold xhsGenerate
      rw [xhsBodyPhase_fst_titles, hph]
    · unfold xhsGenerate
      rw [hph]

/-- C4 witness: with a service returning the empty string the extraction
is empty and the substituted list is exactly the placeholder. -/
theorem c4_witness :
    (xhsGenerate svcEmpty c4Content).2.1 = [placeholderTitle]
    ∧ xhsGenerate svcEmpty c4Content = xhsBodyPhase svcEmpty c4Content [placeholderTitle] := by
  exact (c4_titles_never_empty svcEmpty c4Content).2 (by decide)

/-- C5: when the body phase yields no usable text the flow returns the
original input content unchanged, the headline candidates collected so
far and the empty tag list. -/
theorem c5_body_failure_passthrough (svc : RawService) (content : String)
    (h : generateContentStep svc content ((xhsTitlesPhase svc content).headD placeholderTitle)
      = "") :
    xhsGenerate svc content = (content, xhsTitlesPhase svc content, []) := by
  unfold xhsGenerate
  exact xhsBodyPhase_empty svc content (xhsTitlesPhase svc content) h

/-- C5 witness: a service that produces one title and then fails the body
call yields the passthrough triple with the collected candidate. -/
theorem c5_witness :
    xhsGenerate svcC5 c5Content = (c5Content, [c5Title], []) := by
  have h := c5_body_failure_passthrough svcC5 c5Content (by decide)
  rw [h]
  decide

/-- C6 (amended): in the primary two-phase extraction path
(_generate_titles) a cleaned line is kept only if its length lies in
[6, 49], and on lines of lengths 4, 5, 20 and 50 exactly the line of
length 20 is kept; the section-scoped path of _parse_result applies no
length filter at all and the first-ten-lines fallback only the lower
bound before marker stripping, so the claimed filter does not hold in
every extraction path. -/
theorem c6_length_filter_primary :
    (∀ result t : String, t ∈ parseTitleLines result → 5 < t.length ∧ t.length < 50)
    ∧ parseTitleLines c6FourLines = [c6Line20] := by
  constructor
  · intro result t h
    unfold parseTitleLines at h
    have h2 := List.mem_of_mem_take h
    have h3 := (List.mem_filter.mp h2).2
    unfold titleLineOk at h3
    simp only [Bool.and_eq_true, decide_eq_true_eq] at h3
    exact ⟨h3.1.2, h3.2⟩
  · decide

/-- C6 counterexample: the section-scoped extraction path accepts a line
of length 4, which the claim says is rejected in every path. -/
theorem c6_counterexample :
    (parseResult c6ShortSample).1 = [c6ShortTitle] ∧ c6ShortTitle.length = 4 := by
  refine ⟨by decide, by decide⟩

/-- C6 witness: a line of length 11 survives the primary filter, hence
its length is certified to lie in the open interval. -/
theorem c6_witness :
    5 < c6AcceptedTitle.length ∧ c6AcceptedTitle.length < 50 :=
  c6_length_filter_primary.1 c6SampleResponse c6AcceptedTitle (by decide)

/-- C7 (amended): the five-candidate cap holds in the primary extraction
path and in the first-ten-lines fallback, and on the five distinctly
marked sample lines the primary path returns exactly the five stripped
titles in order; the section-scoped path of _parse_result however is
uncapped, so the cap does not hold in every extraction path. -/
theorem c7_cap_primary_and_fallback :
    (∀ result : String, (parseTitleLines result).length ≤ 5)
    ∧ (∀ result : String, (fallbackTitles result).length ≤ 5)
    ∧ parseTitleLines c7FiveSample = c7FiveExpected := by
  refine ⟨?_, ?_, by decide⟩
  · intro result
    unfold parseTitleLines
    rw [List.length_take]
    exact Nat.min_le_left 5 _
  · intro result
    unfold fallbackTitles
    exact fallbackGo_length_le _ [] (by decide)

/-- C7 counterexample: the section-scoped extraction returns six
candidates, exceeding the claimed universal cap of five. -/
theorem c7_counterexample :
    ((parseResult c7SixSample).1).length = 6 := by
  decide

/-- C8: tag extraction computes exactly the maximal runs of non-space
non-hash characters immediately preceded by a hash, in first-seen order,
duplicates preserved; the sample text yields the duplicated pair and a
tagless text the empty sequence. -/
theorem c8_tags_are_maximal_runs :
    (∀ s : String, extractTags s = specTags s)
    ∧ extractTags c8Sample = c8Expected
    ∧ extractTags c8NoTags = [] := by
  refine ⟨?_, by decide, by decide⟩
  intro s
  unfold extractTags specTags findallTagsL
  rw [findallTagsGo_eq_spec s.data.length s.data (Nat.le_refl _)]

/-- C9: the headline-phase user prompt depends only on the first 500
characters of the content (a bounded preview), while the body-phase user
prompt embeds the full content and the chosen headline verbatim. -/
theorem c9_prompt_embedding (content title : String) :
    buildTitleUserPrompt content = buildTitleUserPrompt (pyTake 500 content)
    ∧ (pyTake 500 content).length ≤ 500
    ∧ buildContentUserPrompt content title
      = contentUserPromptPre ++ title ++ contentUserPromptMid ++ content
        ++ contentUserPromptSuf := by
  refine ⟨?_, ?_, rfl⟩
  · unfold buildTitleUserPrompt
    have h : pyTake 500 (pyTake 500 content) = pyTake 500 content := by
      unfold pyTake
      show String.mk ((content.data.take 500).take 500) = String.mk (content.data.take 500)
      rw [List.take_take, Nat.min_self]
    rw [h]
  · show (content.data.take 500).length ≤ 500
    rw [List.length_take]
    exact Nat.min_le_left _ _

/-- C10: the midpoint split of short-form assembly loses no paragraph
block and reorders none: the first and second halves concatenate back to
the full cleaned paragraph sequence, and the assembled document is the
join of the fixed blocks around exactly these two halves. -/
theorem c10_midpoint_split_preserves_paragraphs (content title : String)
    (tags images : List String) (allTitles : Option (List String)) :
    (splitOnS parSep (noteClean content)).take ((splitOnS parSep (noteClean content)).length / 2)
      ++ (splitOnS parSep (noteClean content)).drop
          ((splitOnS parSep (noteClean content)).length / 2)
      = splitOnS parSep (noteClean content)
    ∧ formatNote content title tags images allTitles
      = joinSep nlSep
          (notePreamble allTitles ++ ["# " ++ title ++ "\n"] ++ noteCover images
            ++ [joinSep parSep ((splitOnS parSep (noteClean content)).take
                  ((splitOnS parSep (noteClean content)).length / 2)), "\n"]
            ++ noteMidImage images
            ++ [joinSep parSep ((splitOnS parSep (noteClean content)).drop
                  ((splitOnS parSep (noteClean content)).length / 2))]
            ++ noteTailImage images ++ noteTagBlock tags) := by
  exact ⟨List.take_append_drop _ _, rfl⟩

end VNG
